import Mathlib

/-!
Verification development for the transit/aspect calculation engine of the
`api-astrologica` repository (`src/app/main.py`).

Conventions of the shallow embedding:
* Python floats (degrees, velocities, day counts) are modelled as `ℚ`;
  dates are modelled as integer day numbers (`ℤ`) via the standard civil
  calendar day-count, so `datetime` comparison and `timedelta` arithmetic
  become integer comparison and addition.
* Python dictionaries carrying optional keys are modelled as structures with
  `Option` fields; `d.get(k, v)` becomes `Option.getD`.
* Python `int(x)` (truncation toward zero) is `truncarInt`, `math.ceil` is
  `Int.ceil`, `round(x, n)` (round half to even) is `arredondar`.
* Each Python class is a namespace (`AdvancedAstroCalculator`,
  `AstroEngineCompleto`); module-level functions live at top level.
-/

namespace Astro

/-- Python `int(x)` applied to a float: truncation toward zero. -/
def truncarInt (q : ℚ) : ℤ :=
  if q < 0 then -⌊-q⌋ else ⌊q⌋

/-- Python `round` to an integer: round half to even. -/
def arredondarMeioPar (q : ℚ) : ℤ :=
  let f := ⌊q⌋
  let r := q - (f : ℚ)
  if r < 1/2 then f
  else if r > 1/2 then f + 1
  else if f % 2 = 0 then f else f + 1

/-- Python `round(x, casas)` (also the rounding done by a one-decimal
f-string format): round half to even at `casas` decimal places. -/
def arredondar (casas : ℕ) (q : ℚ) : ℚ :=
  (arredondarMeioPar (q * 10 ^ casas) : ℚ) / 10 ^ casas

/-- Python float `%` with a positive modulus: `a - b * ⌊a / b⌋`, the
representative in `[0, b)`. -/
def modPositivo (a b : ℚ) : ℚ :=
  a - b * (⌊a / b⌋ : ℚ)

/-- Day number of the Gregorian civil date `y-m-d` (the standard
days-from-civil computation); subtraction of two day numbers is the
`timedelta.days` between the dates, so the `datetime` comparisons and
differences of the source become `ℤ` comparisons and differences. -/
def dataDia (y m d : ℕ) : ℤ :=
  let y' := if m ≤ 2 then y - 1 else y
  let era := y' / 400
  let yoe := y' % 400
  let mp := if 2 < m then m - 3 else m + 9
  let doy := (153 * mp + 2) / 5 + d - 1
  let doe := yoe * 365 + yoe / 4 - yoe / 100 + doy
  (era * 146097 + doe : ℕ)

/-- The pair `(s[i], s[(i+1) % len(s)])` examined at index `i` of the
`determinar_casa` loops. -/
def parSpan {α : Type} (s : List α) (i : Fin s.length) : α × α :=
  (s.get i, s.get ⟨(i.val + 1) % s.length, Nat.mod_lt _ i.pos⟩)

/-- One circular pass over a list: the pairs `(s[i], s[(i+1) % len(s)])` for
`i` in `range(len(s))`, exactly as the `determinar_casa` loops build them. -/
def spanPairs {α : Type} (s : List α) : List (α × α) :=
  (List.finRange s.length).map (parSpan s)

/-- The per-span membership test of `determinar_casa`: normal case when the
next cusp degree is larger, wraparound case otherwise. -/
def contemSpan {α : Type} (grau : α → ℚ) (x : ℚ) (p : α × α) : Bool :=
  if grau p.2 > grau p.1 then decide (grau p.1 ≤ x ∧ x < grau p.2)
  else decide (x ≥ grau p.1 ∨ x < grau p.2)

/-- The `Planet` pydantic model (input planets of the advanced calculator). -/
structure Planet where
  name : String
  fullDegree : ℚ
  normDegree : ℚ
  speed : ℚ
  sign : String
  house : ℤ
deriving DecidableEq

/-- The `House` pydantic model (a single natal house cusp). -/
structure House where
  house : ℤ
  sign : String
  degree : ℚ
deriving DecidableEq

/-- Comparison key used when the house-lookup functions sort cusps
(`sorted(cuspides, key=lambda x: x.degree)`). -/
def degLe (a b : House) : Prop := a.degree ≤ b.degree

instance : DecidableRel degLe := fun a b => inferInstanceAs (Decidable (a.degree ≤ b.degree))

instance : IsTotal House degLe := ⟨fun a b => le_total a.degree b.degree⟩

instance : IsTrans House degLe := ⟨fun _ _ _ hab hbc => le_trans hab hbc⟩

/-- Result dictionary of the `determinar_casa` functions. -/
structure CasaInfo where
  casa : ℤ
  cuspide_grau : ℚ
  proxima_cuspide : ℚ
  proxima_casa : ℤ
deriving DecidableEq

namespace AdvancedAstroCalculator

/-- `self.signos` of `AdvancedAstroCalculator.__init__`. -/
def signos : List String :=
  ["Áries", "Touro", "Gêmeos", "Câncer", "Leão", "Virgem",
   "Libra", "Escorpião", "Sagitário", "Capricórnio", "Aquário", "Peixes"]

/-- `self.planetas_pessoais`. -/
def planetas_pessoais : List String := ["Sol", "Lua", "Mercúrio", "Vênus", "Marte"]

/-- `self.planetas_transpessoais`. -/
def planetas_transpessoais : List String :=
  ["Jupiter", "Júpiter", "Saturno", "Urano", "Netuno", "Plutao", "Plutão"]

/-- `self.planetas_lentos`. -/
def planetas_lentos : List String :=
  ["Jupiter", "Júpiter", "Saturno", "Urano", "Netuno", "Plutao", "Plutão"]

/-- An entry of `self.aspectos`: exact angle, name, nature, intensity. -/
structure AspectoDef where
  angulo : ℚ
  nome : String
  natureza : String
  intensidade : ℤ
deriving DecidableEq

/-- `self.aspectos` of `AdvancedAstroCalculator.__init__`. -/
def aspectos : List AspectoDef :=
  [⟨0, "conjunção", "harmonioso", 10⟩,
   ⟨60, "sextil", "harmonioso", 6⟩,
   ⟨90, "quadratura", "desafiador", 8⟩,
   ⟨120, "trígono", "harmonioso", 7⟩,
   ⟨180, "oposição", "desafiador", 9⟩]

/-- A `for ... return`/`break` scan over an aspect table: the first entry
whose orb is within the maximum, in table order. -/
def primeiroAspectoDentroOrbe (diferenca orbe_maximo : ℚ) :
    List AspectoDef → Option AspectoDef
  | [] => none
  | a :: resto =>
    if |diferenca - a.angulo| ≤ orbe_maximo then some a
    else primeiroAspectoDentroOrbe diferenca orbe_maximo resto

/-- The `self.velocidades_medias` dictionary: mean daily motions in
degrees per day. -/
def velocidades_medias_tabela : List (String × ℚ) :=
  [("Sol", 0.98), ("Lua", 13.2), ("Mercúrio", 1.38), ("Vênus", 1.2),
   ("Marte", 0.52), ("Jupiter", 0.08), ("Júpiter", 0.08), ("Saturno", 0.03),
   ("Urano", 0.01), ("Netuno", 0.006), ("Plutao", 0.004), ("Plutão", 0.004)]

/-- `self.velocidades_medias.get(nome, padrao)`: dictionary lookup with an
explicit default. -/
def velocidades_medias (nome : String) (padrao : ℚ) : ℚ :=
  ((velocidades_medias_tabela.find? fun kv => kv.1 == nome).map Prod.snd).getD padrao

/-- Result of `determinar_tipo_planeta`: planet category and its orb. -/
structure TipoPlaneta where
  tipo : String
  orbe : ℚ
deriving DecidableEq

/-- `determinar_tipo_planeta` (the `_cache_aspectos` memoisation only stores
results of this pure computation, so the cache-free function returns the
same value). -/
def determinar_tipo_planeta (nome_planeta : String) : TipoPlaneta :=
  if nome_planeta ∈ planetas_pessoais then ⟨"pessoal", 5⟩
  else if nome_planeta ∈ planetas_transpessoais then ⟨"transpessoal", 3⟩
  else ⟨"transpessoal", 3⟩

/-- `calcular_diferenca_angular`. -/
def calcular_diferenca_angular (grau1 grau2 : ℚ) : ℚ :=
  let diff := |grau1 - grau2|
  if diff > 180 then 360 - diff else diff

/-- Result dictionary of `identificar_aspecto`. -/
structure Aspecto where
  nome : String
  orbe : ℚ
  natureza : String
  intensidade : ℤ
  orbe_maximo : ℚ
deriving DecidableEq

/-- `identificar_aspecto(diferenca, planeta1, planeta2)`: tolerance is the
minimum of the two planets' category orbs; the first aspect of the table
within tolerance is returned. -/
def identificar_aspecto (diferenca : ℚ) (planeta1 planeta2 : String) : Option Aspecto :=
  let tipo1 := determinar_tipo_planeta planeta1
  let tipo2 := determinar_tipo_planeta planeta2
  let orbe_maximo := min tipo1.orbe tipo2.orbe
  (primeiroAspectoDentroOrbe diferenca orbe_maximo aspectos).map fun a =>
    { nome := a.nome, orbe := |diferenca - a.angulo|, natureza := a.natureza,
      intensidade := a.intensidade, orbe_maximo := orbe_maximo }

/-- `determinar_casa(grau_transito, cuspides)`: sort the cusps by degree and
return the first circular span containing the longitude. -/
def determinar_casa (grau_transito : ℚ) (cuspides : List House) : Option CasaInfo :=
  ((spanPairs (List.insertionSort degLe cuspides)).find?
      (contemSpan House.degree grau_transito)).map fun p =>
    { casa := p.1.house, cuspide_grau := p.1.degree,
      proxima_cuspide := p.2.degree, proxima_casa := p.2.house }

/-- The divisor of `estimar_permanencia`:
`abs(planeta.speed) or self.velocidades_medias.get(planeta.name, 0.05)`. -/
def velocidadeEstimarPermanencia (planeta : Planet) : ℚ :=
  if |planeta.speed| = 0 then velocidades_medias planeta.name 0.05 else |planeta.speed|

/-- Result of `estimar_permanencia`. -/
structure Permanencia where
  tempo_restante_signo : ℚ
  unidade : String
deriving DecidableEq

/-- `estimar_permanencia`. -/
def estimar_permanencia (planeta : Planet) : Permanencia :=
  let velocidade := velocidadeEstimarPermanencia planeta
  let graus_restantes := 30 - planeta.normDegree
  let dias_no_signo := |graus_restantes / velocidade|
  if dias_no_signo > 365 then ⟨arredondar 1 (dias_no_signo / 365), "anos"⟩
  else if dias_no_signo > 30 then ⟨arredondar 1 (dias_no_signo / 30), "meses"⟩
  else ⟨(truncarInt dias_no_signo : ℚ), "dias"⟩

/-- The divisor of the sign-change estimate in `analisar_planetas_lentos`:
`abs(planeta.speed) or self.velocidades_medias.get(planeta.name, 0.08)`. -/
def velocidadeLentos (planeta : Planet) : ℚ :=
  if |planeta.speed| = 0 then velocidades_medias planeta.name 0.08 else |planeta.speed|

end AdvancedAstroCalculator

/-- A raw input planet dictionary (the ad hoc payload entries), every key
optional; `isRetro` may arrive as a string or as a boolean. -/
structure DadosPlaneta where
  name : Option String := none
  fullDegree : Option ℚ := none
  normDegree : Option ℚ := none
  speed : Option ℚ := none
  isRetroStr : Option String := none
  isRetroBool : Option Bool := none
  sign : Option String := none
  house : Option ℤ := none
deriving DecidableEq

/-- An entry of the five-tuple table `aspectos_principais` used by
`calcular_aspectos_batch`: exact angle, name, nature, intensity. -/
def aspectos_principais : List AdvancedAstroCalculator.AspectoDef :=
  [⟨0, "conjunção", "harmonioso", 10⟩,
   ⟨60, "sextil", "harmonioso", 6⟩,
   ⟨90, "quadratura", "desafiador", 8⟩,
   ⟨120, "trígono", "harmonioso", 7⟩,
   ⟨180, "oposição", "desafiador", 9⟩]

/-- One aspect dictionary appended by `calcular_aspectos_batch`. -/
structure AspectoBatch where
  planeta_natal : Option String
  signo_natal : Option String
  casa_natal : Option ℤ
  tipo_aspecto : String
  natureza : String
  intensidade : ℤ
  orbe : ℚ
  orbe_maximo_usado : ℚ
deriving DecidableEq

/-- The orb maximum of `calcular_aspectos_batch`: 5 for the listed personal
planets, otherwise 3, decided by the transiting planet's name alone. -/
def orbeMaximoBatch (nome_planeta : String) : ℚ :=
  if nome_planeta ∈ ["Sol", "Lua", "Mercúrio", "Vênus", "Marte"] then 5 else 3

/-- The body of the `for planeta_natal in planetas_natais` loop of
`calcular_aspectos_batch`: the aspect entry this natal planet appends, if
any — skipping entries without a truthy `fullDegree`, and breaking at the
first table angle within the orb maximum. -/
def aspectoBatchDe (planeta_grau : ℚ) (nome_planeta : String)
    (pn : DadosPlaneta) : Option AspectoBatch :=
  match pn.fullDegree with
  | none => none
  | some fd =>
    if fd = 0 then none
    else
      let d0 := |planeta_grau - fd|
      let diferenca := if d0 > 180 then 360 - d0 else d0
      let orbe_maximo := orbeMaximoBatch nome_planeta
      match AdvancedAstroCalculator.primeiroAspectoDentroOrbe diferenca orbe_maximo aspectos_principais with
      | some a =>
        some { planeta_natal := pn.name, signo_natal := pn.sign,
               casa_natal := pn.house, tipo_aspecto := a.nome,
               natureza := a.natureza, intensidade := a.intensidade,
               orbe := arredondar 1 |diferenca - a.angulo|,
               orbe_maximo_usado := orbe_maximo }
      | none => none

/-- The `for planeta_natal in planetas_natais` loop of
`calcular_aspectos_batch`, with its accumulating `aspectos` list: each
iteration appends at most the one entry produced by `aspectoBatchDe`. -/
def aspectosBatchLoop (planeta_grau : ℚ) (nome_planeta : String)
    (acc : List AspectoBatch) : List (Option DadosPlaneta) → List AspectoBatch
  | [] => acc
  | nenhum :: resto =>
    match nenhum with
    | none => aspectosBatchLoop planeta_grau nome_planeta acc resto
    | some pn =>
      match aspectoBatchDe planeta_grau nome_planeta pn with
      | some entrada =>
        aspectosBatchLoop planeta_grau nome_planeta (acc ++ [entrada]) resto
      | none => aspectosBatchLoop planeta_grau nome_planeta acc resto

/-- `calcular_aspectos_batch(planeta_grau, planetas_natais, nome_planeta)`:
at most one aspect (the first matching table entry) per natal planet;
entries without a truthy `fullDegree` are skipped. -/
def calcular_aspectos_batch (planeta_grau : ℚ)
    (planetas_natais : List (Option DadosPlaneta)) (nome_planeta : String) :
    List AspectoBatch :=
  aspectosBatchLoop planeta_grau nome_planeta [] planetas_natais

/-- Specification-side description of one natal planet's contribution to
`calcular_aspectos_batch`: `none` when `fullDegree` is missing or zero or no
canonical angle matches; otherwise the entry built from the first matching
angle in the fixed table order. -/
def aspectoBatchSpec (planeta_grau : ℚ) (nome_planeta : String)
    (pn : DadosPlaneta) : Option AspectoBatch :=
  pn.fullDegree.bind fun fd =>
    if fd = 0 then none
    else
      let d0 := |planeta_grau - fd|
      let diferenca := if d0 > 180 then 360 - d0 else d0
      let orbe_maximo := orbeMaximoBatch nome_planeta
      (aspectos_principais.find? fun a =>
          decide (|diferenca - a.angulo| ≤ orbe_maximo)).map fun a =>
        { planeta_natal := pn.name, signo_natal := pn.sign,
          casa_natal := pn.house, tipo_aspecto := a.nome,
          natureza := a.natureza, intensidade := a.intensidade,
          orbe := arredondar 1 |diferenca - a.angulo|,
          orbe_maximo_usado := orbe_maximo }

namespace AstroEngineCompleto

/-- `self.signos` of `AstroEngineCompleto.__init__`. -/
def signos : List String :=
  ["Áries", "Touro", "Gêmeos", "Câncer", "Leão", "Virgem",
   "Libra", "Escorpião", "Sagitário", "Capricórnio", "Aquário", "Peixes"]

/-- A planet dictionary normalised by `normalizar_planeta_data`. -/
structure Planeta where
  name : Option String
  fullDegree : ℚ
  normDegree : ℚ
  speed : ℚ
  isRetro : Bool
  sign : String
  house : ℤ
deriving DecidableEq

/-- `normalizar_signo`. -/
def normalizar_signo (signo : String) : String :=
  if signo = "Gémeos" then "Gêmeos"
  else if signo = "Gemeos" then "Gêmeos"
  else if signo = "Virgem" then "Virgem"
  else if signo = "Escorpião" then "Escorpião"
  else if signo = "Escorpiao" then "Escorpião"
  else if signo = "Capricórnio" then "Capricórnio"
  else if signo = "Capricornio" then "Capricórnio"
  else if signo = "Aquário" then "Aquário"
  else if signo = "Aquario" then "Aquário"
  else signo

/-- The `isRetro` normalisation of `normalizar_planeta_data`: default string
`'false'`; a string counts as retrograde exactly when it lowercases to
`'true'`; a boolean is taken as is. -/
def isRetroBoolDe (d : DadosPlaneta) : Bool :=
  match d.isRetroStr with
  | some s => s.toLower == "true"
  | none =>
    match d.isRetroBool with
    | some b => b
    | none => "false".toLower == "true"

/-- `normalizar_planeta_data`. -/
def normalizar_planeta_data (d : DadosPlaneta) : Planeta :=
  let is_retro_bool := isRetroBoolDe d
  let signo_normalizado := normalizar_signo (d.sign.getD "Áries")
  let speed0 := d.speed.getD 0
  let speed := if is_retro_bool ∧ 0 ≤ speed0 then -|speed0| else speed0
  { name := d.name, fullDegree := d.fullDegree.getD 0,
    normDegree := d.normDegree.getD 0, speed := speed,
    isRetro := is_retro_bool, sign := signo_normalizado,
    house := d.house.getD 1 }

/-- `calcular_diferenca`. -/
def calcular_diferenca (grau1 grau2 : ℚ) : ℚ :=
  let diff := |grau1 - grau2|
  if diff > 180 then 360 - diff else diff

/-- Result dictionary of the engine's `identificar_aspecto`. -/
structure AspectoEngine where
  nome : String
  orbe : ℚ
  natureza : String
  intensidade : ℤ
deriving DecidableEq

/-- The engine's `identificar_aspecto(diferenca)`: a flat 5-degree orb for
all five aspects, with no dependence on the planets involved. -/
def identificar_aspecto (diferenca : ℚ) : Option AspectoEngine :=
  if diferenca ≤ 5 then some ⟨"conjunção", diferenca, "harmonioso", 10⟩
  else if |diferenca - 60| ≤ 5 then some ⟨"sextil", |diferenca - 60|, "harmonioso", 6⟩
  else if |diferenca - 90| ≤ 5 then some ⟨"quadratura", |diferenca - 90|, "desafiador", 8⟩
  else if |diferenca - 120| ≤ 5 then some ⟨"trígono", |diferenca - 120|, "harmonioso", 7⟩
  else if |diferenca - 180| ≤ 5 then some ⟨"oposição", |diferenca - 180|, "desafiador", 9⟩
  else none

/-- `encontrar_planeta(nome, lista)` of the engine: first entry whose `name`
equals the requested name. -/
def encontrar_planeta (nome : String) (lista : List Planeta) : Option Planeta :=
  lista.find? fun p => decide (p.name = some nome)

/-- A raw cusp dictionary of the `houses` array, keys read through
`.get('degree', 0)` and `.get('house', 1)`. -/
structure CuspideRaw where
  degree : Option ℚ := none
  house : Option ℤ := none
deriving DecidableEq

/-- `cuspide.get('degree', 0)`. -/
def grauCuspide (c : CuspideRaw) : ℚ := c.degree.getD 0

/-- `cuspide.get('house', 1)`. -/
def casaCuspide (c : CuspideRaw) : ℤ := c.house.getD 1

/-- Sort key of the engine's `determinar_casa`
(`sorted(cuspides_array, key=lambda x: x.get('degree', 0))`). -/
def degRawLe (a b : CuspideRaw) : Prop := grauCuspide a ≤ grauCuspide b

instance : DecidableRel degRawLe := fun a b =>
  inferInstanceAs (Decidable (grauCuspide a ≤ grauCuspide b))

instance : IsTotal CuspideRaw degRawLe := ⟨fun a b => le_total (grauCuspide a) (grauCuspide b)⟩

instance : IsTrans CuspideRaw degRawLe := ⟨fun _ _ _ hab hbc => le_trans hab hbc⟩

/-- The engine's `determinar_casa(grau_transito, cuspides_array)`: same scan
as the advanced one, over raw cusp dictionaries with defaulted keys. -/
def determinar_casa (grau_transito : ℚ) (cuspides_array : List CuspideRaw) : Option CasaInfo :=
  ((spanPairs (List.insertionSort degRawLe cuspides_array)).find?
      (contemSpan grauCuspide grau_transito)).map fun p =>
    { casa := casaCuspide p.1, cuspide_grau := grauCuspide p.1,
      proxima_cuspide := grauCuspide p.2, proxima_casa := casaCuspide p.2 }

/-- The planets supported by the PyEphem fallback map of
`obter_posicao_ephem`. -/
def ephem_planetas : List String :=
  ["Sol", "Lua", "Mercúrio", "Vênus", "Marte", "Júpiter",
   "Saturno", "Urano", "Netuno", "Plutão"]

/-- Result dictionary of the position lookups. -/
structure Posicao where
  name : String
  sign : String
  normDegree : ℚ
  fullDegree : ℚ
  speed : ℚ
deriving DecidableEq

/-- The fallback constant returned by `obter_posicao_ephem` when any step of
the computation fails. -/
def posicaoPadrao (nome_planeta : String) : Posicao :=
  { name := nome_planeta, sign := "Áries", normDegree := 0, fullDegree := 0, speed := 1 }

/-- `obter_posicao_ephem(nome_planeta, data_str)`. The PyEphem backend is
abstracted as a function giving the computed ecliptic longitude in degrees,
or `none` when the backend computation raises. Every failure — unsupported
body, backend error, or an out-of-range longitude making the sign indexing
raise — is caught by the `except` clause, which returns the default
position instead of propagating. -/
def obter_posicao_ephem (backend : String → Option ℚ) (nome_planeta : String) : Posicao :=
  match (if nome_planeta ∈ ephem_planetas then backend nome_planeta else none) with
  | none => posicaoPadrao nome_planeta
  | some longitude_graus =>
    let signo_index := ⌊longitude_graus / 30⌋
    if h : 0 ≤ signo_index ∧ signo_index < 12 then
      { name := nome_planeta,
        sign := signos.get ⟨signo_index.toNat, by
          have h2 := h.2
          have hlen : signos.length = 12 := rfl
          rw [hlen]
          omega⟩,
        normDegree := modPositivo longitude_graus 30,
        fullDegree := longitude_graus, speed := 1 }
    else if h' : -12 ≤ signo_index ∧ signo_index < 0 then
      { name := nome_planeta,
        sign := signos.get ⟨(signo_index + 12).toNat, by
          have h2 := h'.2
          have hlen : signos.length = 12 := rfl
          rw [hlen]
          omega⟩,
        normDegree := modPositivo longitude_graus 30,
        fullDegree := longitude_graus, speed := 1 }
    else posicaoPadrao nome_planeta

/-- `calcular_data_futura(dias_adicionais)`: today plus a day count (the
`strftime` formatting is presentation only, so the result is kept as a day
number).  The wall-clock `datetime.now()` is the explicit `hoje` argument. -/
def calcular_data_futura (hoje : ℤ) (dias_adicionais : ℤ) : ℤ :=
  hoje + dias_adicionais

/-- One entry of the static `dados_emergencia` retrograde table. -/
structure RetroDado where
  inicio : ℤ
  fim : ℤ
  signo : String
deriving DecidableEq

/-- The static `dados_emergencia` table of `calcular_retrogradacoes_fallback`
(identical to `self.dados_retrogradacao_cache`), dates as day numbers. -/
def dados_emergencia (nome : String) : List RetroDado :=
  if nome = "Mercúrio" then
    [⟨dataDia 2025 3 15, dataDia 2025 4 7, "Áries"⟩,
     ⟨dataDia 2025 7 18, dataDia 2025 8 11, "Leão"⟩,
     ⟨dataDia 2025 11 9, dataDia 2025 11 29, "Sagitário"⟩]
  else if nome = "Vênus" then [⟨dataDia 2025 7 26, dataDia 2025 9 6, "Virgem"⟩]
  else if nome = "Marte" then [⟨dataDia 2025 12 6, dataDia 2026 2 24, "Leão"⟩]
  else if nome = "Júpiter" then [⟨dataDia 2025 5 9, dataDia 2025 9 11, "Gêmeos"⟩]
  else if nome = "Saturno" then [⟨dataDia 2025 5 24, dataDia 2025 10 15, "Peixes"⟩]
  else if nome = "Urano" then [⟨dataDia 2025 9 1, dataDia 2026 1 30, "Touro"⟩]
  else if nome = "Netuno" then [⟨dataDia 2025 7 2, dataDia 2025 12 7, "Peixes"⟩]
  else if nome = "Plutão" then [⟨dataDia 2025 5 4, dataDia 2025 10 11, "Aquário"⟩]
  else []

/-- A retrograde-interval dictionary produced by the engine. -/
structure Retrogradacao where
  inicio : ℤ
  fim : ℤ
  duracao_dias : ℤ
  signo_retrogradacao : String
  fonte : String
  descricao : String
deriving DecidableEq

/-- The f-string description attached to every retrograde interval. -/
def descricaoRetro (nome_planeta signo : String) : String :=
  "Durante a retrogradação, " ++ nome_planeta ++
    " revisitará graus anteriores e pode intensificar temas relacionados ao signo " ++ signo

/-- `calcular_retrogradacoes_fallback(nome_planeta, data_inicio_str,
periodo_meses)`: the static table entries overlapping the window
`[data_inicio, data_inicio + periodo_meses * 30]`. -/
def calcular_retrogradacoes_fallback (nome_planeta : String)
    (data_inicio periodo_meses : ℤ) : List Retrogradacao :=
  let dt_fim := data_inicio + periodo_meses * 30
  (dados_emergencia nome_planeta).filterMap fun retro =>
    if retro.inicio ≤ dt_fim ∧ data_inicio ≤ retro.fim then
      some { inicio := retro.inicio, fim := retro.fim,
             duracao_dias := retro.fim - retro.inicio,
             signo_retrogradacao := retro.signo, fonte := "DADOS_EMERGENCIA",
             descricao := descricaoRetro nome_planeta retro.signo }
    else none

/-- `calcular_retrogradacoes(planeta, signo_atual, velocidade, houses_array)`:
always takes the static fallback data for the next 12 months and overrides
every interval's sign with the input sign; the `velocidade` and
`houses_array` arguments are never consulted. -/
def calcular_retrogradacoes (planeta : Planeta) (signo_atual : String)
    (velocidade : ℚ) (houses_array : List CuspideRaw) (hoje : ℤ) : List Retrogradacao :=
  let nome_planeta := planeta.name.getD ""
  let retrogradacoes := calcular_retrogradacoes_fallback nome_planeta hoje 12
  let _ := velocidade
  let _ := houses_array
  retrogradacoes.map fun retro =>
    { retro with signo_retrogradacao := signo_atual, fonte := "DADOS_ENTRADA_CORRIGIDO" }

/-- `obter_signo_por_longitude`. -/
def obter_signo_por_longitude (longitude : ℚ) : String :=
  let signo_index := ⌊longitude / 30⌋
  signos.get ⟨(signo_index % 12).toNat, by
    have h0 : 0 ≤ signo_index % 12 := Int.emod_nonneg _ (by norm_num)
    have h1 : signo_index % 12 < 12 := Int.emod_lt_of_pos _ (by norm_num)
    have hlen : signos.length = 12 := rfl
    rw [hlen]
    omega⟩

/-- `if pos < 0: pos += 360`, the longitude normalisation inside the NASA
retrograde scan. -/
def normalizarLongitude (p : ℚ) : ℚ := if p < 0 then p + 360 else p

/-- The velocity wraparound adjustment of the NASA retrograde scan. -/
def ajustarVelocidade (v : ℚ) : ℚ :=
  if v > 180 then v - 360 else if v < -180 then v + 360 else v

/-- Mutable state of the daily scan loop in
`calcular_retrogradacoes_nasa_dinamico`. -/
structure ScanRetro where
  em_retrogradacao : Bool
  inicio_retro : Option ℤ
  signo_inicio_retro : Option String
  retrogradacoes : List Retrogradacao
deriving DecidableEq

/-- One day of the scan loop of `calcular_retrogradacoes_nasa_dinamico`.
`pos` is the ephemeris longitude for a given day, `none` when that sample's
backend call raises (the `except` clause then just advances the day). -/
def retroScanDia (pos : ℤ → Option ℚ) (nome_planeta : String)
    (st : ScanRetro) (dia : ℤ) : ScanRetro :=
  match pos dia, pos (dia + 1) with
  | some ph, some pa =>
    let pos_hoje := normalizarLongitude ph
    let pos_amanha := normalizarLongitude pa
    let velocidade := ajustarVelocidade (pos_amanha - pos_hoje)
    if velocidade < 0 ∧ st.em_retrogradacao = false then
      { st with em_retrogradacao := true, inicio_retro := some dia,
                signo_inicio_retro := some (obter_signo_por_longitude pos_hoje) }
    else if 0 ≤ velocidade ∧ st.em_retrogradacao = true then
      match st.inicio_retro, st.signo_inicio_retro with
      | some inicio, some signo =>
        { em_retrogradacao := false, inicio_retro := none, signo_inicio_retro := none,
          retrogradacoes := st.retrogradacoes ++
            [{ inicio := inicio, fim := dia, duracao_dias := dia - inicio,
               signo_retrogradacao := signo, fonte := "NASA_CALCULADO",
               descricao := descricaoRetro nome_planeta signo }] }
      | _, _ => { st with em_retrogradacao := false }
    else st
  | _, _ => st

/-- The days scanned by `while data_atual <= dt_fim`, one-day cadence. -/
def diasScan (inicio fim : ℤ) : List ℤ :=
  (List.range (fim - inicio + 1).toNat).map fun k => inicio + k

/-- The full daily scan of `calcular_retrogradacoes_nasa_dinamico`: start
with no open interval and fold the day step over the horizon. -/
def retroScanLoop (pos : ℤ → Option ℚ) (nome_planeta : String)
    (inicio fim : ℤ) : List Retrogradacao :=
  ((diasScan inicio fim).foldl (retroScanDia pos nome_planeta)
    ⟨false, none, none, []⟩).retrogradacoes

/-- `calcular_retrogradacoes_nasa_dinamico`: falls back to the static table
when NASA is disabled, returns `[]` for an unknown body, and otherwise runs
the daily velocity scan over `periodo_meses * 30` days. -/
def calcular_retrogradacoes_nasa_dinamico (nasa : Bool) (planetaConhecido : Bool)
    (pos : ℤ → Option ℚ) (nome_planeta : String)
    (data_inicio periodo_meses : ℤ) : List Retrogradacao :=
  if nasa = false then calcular_retrogradacoes_fallback nome_planeta data_inicio periodo_meses
  else if planetaConhecido = false then []
  else retroScanLoop pos nome_planeta data_inicio (data_inicio + periodo_meses * 30)

/-- One house entry produced by `calcular_multiplas_casas_retrogradacao`. -/
structure CasaRetro where
  casa : ℤ
  data_entrada : ℤ
  data_saida : ℤ
  duracao_dias : ℤ
deriving DecidableEq

/-- `range(0, duracao_total + 1, 15)`. -/
def range015 (duracao_total : ℤ) : List ℤ :=
  if duracao_total < 0 then []
  else (List.range (duracao_total.toNat / 15 + 1)).map fun k => (k : ℤ) * 15

/-- `calcular_multiplas_casas_retrogradacao(planeta, periodo_retro,
houses_array)`: walk the retrograde period in 15-day steps, projecting the
degree backwards at `-abs(speed)` per day, and record each newly seen house;
if none is found, fall back to the current house over the whole period. -/
def calcular_multiplas_casas_retrogradacao (planeta : Planeta)
    (periodo_retro : Retrogradacao) (houses_array : List CuspideRaw) : List CasaRetro :=
  let inicio := periodo_retro.inicio
  let fim := periodo_retro.fim
  let duracao_total := fim - inicio
  let grau_inicial := planeta.fullDegree
  let velocidade_retrograda := -|planeta.speed|
  let resultado := (range015 duracao_total).foldl (fun st (dia : ℤ) =>
      let grau_dia := grau_inicial + velocidade_retrograda * (dia : ℚ)
      let grau_normalizado := modPositivo (modPositivo grau_dia 360 + 360) 360
      match determinar_casa grau_normalizado houses_array with
      | some casa_info =>
        if casa_info.casa ∈ st.1 then st
        else
          let data_entrada_casa : ℤ := inicio + dia
          let duracao_casa : ℤ := min 45 (duracao_total - dia)
          let data_saida_casa : ℤ := min (data_entrada_casa + duracao_casa) fim
          (st.1 ++ [casa_info.casa],
           st.2 ++ [{ casa := casa_info.casa, data_entrada := data_entrada_casa,
                      data_saida := data_saida_casa,
                      duracao_dias := data_saida_casa - data_entrada_casa }])
      | none => st) (([], []) : List ℤ × List CasaRetro)
  if resultado.2 = [] then
    match determinar_casa grau_inicial houses_array with
    | some casa_atual =>
      [{ casa := casa_atual.casa, data_entrada := inicio, data_saida := fim,
         duracao_dias := duracao_total }]
    | none => []
  else resultado.2

/-- One activated-house dictionary of `analisar_transito_em_signo_corrigido`. -/
structure CasaAtivada where
  casa : ℤ
  data_entrada : ℤ
  data_saida : ℤ
  permanencia_meses : ℚ
  grau_entrada : ℚ
  grau_saida : ℚ
deriving DecidableEq

/-- One natal-aspect dictionary of `analisar_transito_em_signo_corrigido`. -/
structure AspectoNatal where
  planeta_natal : Option String
  signo_natal : String
  casa_natal : ℤ
  tipo_aspecto : String
  natureza : String
  intensidade : ℤ
  grau_aspecto : ℚ
  data_inicio : ℤ
  data_exata : ℤ
  data_fim : ℤ
  orbe : ℚ
  casa_ativada : Option ℤ
deriving DecidableEq

/-- The `resumo` dictionary of a per-sign analysis. -/
structure ResumoSigno where
  total_casas : ℕ
  total_aspectos : ℕ
  aspectos_harmonicos : ℕ
  aspectos_desafiadores : ℕ
deriving DecidableEq

/-- The dictionary returned by `analisar_transito_em_signo_corrigido`. -/
structure AnaliseSigno where
  signo : String
  casas_ativadas : List CasaAtivada
  aspectos_com_natal : List AspectoNatal
  resumo : ResumoSigno
deriving DecidableEq

/-- `range(a, b, 5)` over integers. -/
def rangeStep5 (a b : ℤ) : List ℤ :=
  if b ≤ a then []
  else (List.range ((b - a + 4).toNat / 5)).map fun k => a + 5 * (k : ℤ)

/-- Truthiness of `planeta_natal.get('name')`: present and non-empty.  (The
natal list entering the per-sign analysis holds normalised dictionaries,
never `None`, so `if not planeta_natal` is never the reason to skip.) -/
def nomeTruthy (p : Planeta) : Bool :=
  match p.name with
  | some s => !(s == "")
  | none => false

/-- `analisar_transito_em_signo_corrigido`: activated houses every 5 degrees
(at most 15 degrees per house, at most 365 days), and natal aspects probed
at the key degrees 5, 15 and 25 with the flat-orb `identificar_aspecto`
filtered to orb ≤ 3 and a fixed 10-day window. -/
def analisar_transito_em_signo_corrigido (planeta : Planeta) (signo : String)
    (grau_inicio grau_fim : ℚ) (natal : List Planeta)
    (houses_array : List CuspideRaw) (dias_ate_entrada velocidade : ℚ)
    (hoje : ℤ) : AnaliseSigno :=
  let _ := planeta
  let casas_ativadas := ((rangeStep5 (truncarInt grau_inicio) (truncarInt grau_fim)).foldl
    (fun st (grau : ℤ) =>
      match determinar_casa (grau : ℚ) houses_array with
      | some casa =>
        if casa.casa ∈ st.1 then st
        else
          let grau_entrada_casa : ℚ := (grau : ℚ)
          let grau_saida_casa : ℚ := min ((grau : ℚ) + 15) grau_fim
          let dias_ate_entrada_casa :=
            dias_ate_entrada + max 0 ((grau_entrada_casa - grau_inicio) / velocidade)
          let dias_na_casa0 := max 1 ((grau_saida_casa - grau_entrada_casa) / velocidade)
          let dias_na_casa := if dias_na_casa0 > 365 then (365 : ℚ) else dias_na_casa0
          (st.1 ++ [casa.casa],
           st.2 ++ [{ casa := casa.casa,
                      data_entrada := calcular_data_futura hoje (truncarInt dias_ate_entrada_casa),
                      data_saida :=
                        calcular_data_futura hoje (truncarInt (dias_ate_entrada_casa + dias_na_casa)),
                      permanencia_meses := arredondar 1 (dias_na_casa / 30),
                      grau_entrada := arredondar 1 grau_entrada_casa,
                      grau_saida := arredondar 1 grau_saida_casa }])
      | none => st) (([], []) : List ℤ × List CasaAtivada)).2
  let graus_chave : List ℚ := [5, 15, 25]
  let aspectos_com_natal := graus_chave.foldl (fun acc grau_relativo =>
    let grau_absoluto := grau_inicio + grau_relativo
    let dias_ate_grau := dias_ate_entrada + grau_relativo / velocidade
    natal.foldl (fun acc2 planeta_natal =>
      if nomeTruthy planeta_natal then
        let diferenca := calcular_diferenca grau_absoluto planeta_natal.fullDegree
        match identificar_aspecto diferenca with
        | some aspecto =>
          if aspecto.orbe ≤ 3 then
            let dias_orbe : ℚ := 10
            acc2 ++ [{ planeta_natal := planeta_natal.name,
                       signo_natal := planeta_natal.sign,
                       casa_natal := planeta_natal.house,
                       tipo_aspecto := aspecto.nome, natureza := aspecto.natureza,
                       intensidade := aspecto.intensidade, grau_aspecto := grau_relativo,
                       data_inicio :=
                         calcular_data_futura hoje (truncarInt (dias_ate_grau - dias_orbe)),
                       data_exata := calcular_data_futura hoje (truncarInt dias_ate_grau),
                       data_fim :=
                         calcular_data_futura hoje (truncarInt (dias_ate_grau + dias_orbe)),
                       orbe := arredondar 1 aspecto.orbe,
                       casa_ativada :=
                         (determinar_casa grau_absoluto houses_array).map CasaInfo.casa }]
          else acc2
        | none => acc2
      else acc2) acc) ([] : List AspectoNatal)
  { signo := signo, casas_ativadas := casas_ativadas,
    aspectos_com_natal := aspectos_com_natal,
    resumo := { total_casas := casas_ativadas.length,
                total_aspectos := aspectos_com_natal.length,
                aspectos_harmonicos :=
                  (aspectos_com_natal.filter fun a => a.natureza == "harmonioso").length,
                aspectos_desafiadores :=
                  (aspectos_com_natal.filter fun a => a.natureza == "desafiador").length } }

/-- The `velocidades_padrao` dictionary of `analisar_transito_planeta`. -/
def velocidades_padrao_tabela : List (String × ℚ) :=
  [("Sol", 0.98), ("Lua", 12), ("Mercúrio", 1.5), ("Vênus", 1.2),
   ("Marte", 0.6), ("Júpiter", 0.15), ("Saturno", 0.08), ("Urano", 0.04),
   ("Netuno", 0.02), ("Plutão", 0.01)]

/-- `velocidades_padrao.get(planeta.get('name'), 0.1)` of
`analisar_transito_planeta`; a missing name is not a dictionary key, so it
falls to the default. -/
def velocidades_padrao (nome : Option String) : ℚ :=
  match nome with
  | some s => ((velocidades_padrao_tabela.find? fun kv => kv.1 == s).map Prod.snd).getD 0.1
  | none => 0.1

/-- The daily-velocity divisor of `analisar_transito_planeta`: the absolute
input speed, or the per-planet default table when that is zero. -/
def velocidadeTransito (planeta : Planeta) : ℚ :=
  let velocidade := |planeta.speed|
  if velocidade = 0 then velocidades_padrao planeta.name else velocidade

/-- `limites_dias.get(planeta.get('name'), 365)`. -/
def limites_dias (nome : Option String) : ℤ :=
  match nome with
  | some "Sol" => 31
  | some "Lua" => 3
  | some "Mercúrio" => 25
  | some "Vênus" => 30
  | some "Marte" => 60
  | some "Júpiter" => 365
  | some "Saturno" => 900
  | some "Urano" => 2500
  | some "Netuno" => 4500
  | some "Plutão" => 7300
  | _ => 365

/-- `pontuacao_base.get(planeta.get('name', ''), 3)` of `calcular_relevancia`. -/
def pontuacao_base (nome : Option String) : ℚ :=
  match nome with
  | some "Júpiter" => 9
  | some "Saturno" => 8
  | some "Urano" => 6
  | some "Netuno" => 4
  | some "Plutão" => 7
  | some "Marte" => 5
  | some "Vênus" => 4
  | some "Mercúrio" => 3
  | _ => 3

/-- `calcular_relevancia(planeta, analise_atual, analise_proximo)`. -/
def calcular_relevancia (planeta : Planeta) (analise_atual : AnaliseSigno)
    (analise_proximo : Option AnaliseSigno) : ℤ :=
  let pontuacao0 := pontuacao_base planeta.name
  let pontuacao1 := pontuacao0 + (analise_atual.aspectos_com_natal.length : ℚ) * 2
  let pontuacao2 := pontuacao1 +
    ((analise_atual.aspectos_com_natal.filter fun a => decide (8 ≤ a.intensidade)).length : ℚ) * 3
  let pontuacao3 :=
    match analise_proximo with
    | some ap => pontuacao2 + (ap.aspectos_com_natal.length : ℚ) * 1.5
    | none => pontuacao2
  let pontuacao4 := if planeta.speed < 0 then pontuacao3 + 3 else pontuacao3
  arredondarMeioPar pontuacao4

/-- The `tempo_restante_signo` dictionary. -/
structure TempoRestante where
  dias : ℤ
  meses : ℚ
  data_mudanca : ℤ
deriving DecidableEq

/-- A retrograde interval together with its `casas_ativadas`, as assembled
by `analisar_transito_planeta`. -/
structure RetroCompleta where
  retro : Retrogradacao
  casas_ativadas : List CasaRetro
deriving DecidableEq

/-- The complete per-planet dictionary returned by
`analisar_transito_planeta`. -/
structure Analise where
  planeta : Option String
  signo_atual : String
  grau_atual : ℚ
  velocidade_diaria : ℚ
  eh_retrogrado : Bool
  tempo_restante_signo : TempoRestante
  proximo_signo : String
  analise_signo_atual : AnaliseSigno
  analise_proximo_signo : Option AnaliseSigno
  retrogradacoes : List RetroCompleta
  relevancia : ℤ
deriving DecidableEq

/-- `analisar_transito_planeta(planeta, natal, houses_array)`. -/
def analisar_transito_planeta (planeta : Planeta) (natal : List Planeta)
    (houses_array : List CuspideRaw) (hoje : ℤ) : Analise :=
  let velocidade := velocidadeTransito planeta
  let eh_retrogrado := planeta.speed < 0
  let index_signo_atual := (signos.findIdx? (· == planeta.sign)).getD 0
  let proximo_signo := signos.getD ((index_signo_atual + 1) % 12) ""
  let signo_anterior := signos.getD ((index_signo_atual + 11) % 12) ""
  let grau_inicio_signo_atual : ℚ := (index_signo_atual : ℚ) * 30
  let grau_fim_signo_atual := grau_inicio_signo_atual + 30
  let grau_atual := planeta.normDegree
  let graus_restantes := if eh_retrogrado then grau_atual else 30 - grau_atual
  let dias0 := ⌈graus_restantes / velocidade⌉
  let limite := limites_dias planeta.name
  let dias_restantes_signo := if dias0 > limite then limite else dias0
  let analise_signo_atual := analisar_transito_em_signo_corrigido planeta planeta.sign
    grau_inicio_signo_atual grau_fim_signo_atual natal houses_array 0 velocidade hoje
  let analise_proximo_signo :=
    if dias_restantes_signo < 730 ∧ ¬ eh_retrogrado then
      let grau_inicio_proximo : ℚ := (((index_signo_atual + 1) % 12 : ℕ) : ℚ) * 30
      some (analisar_transito_em_signo_corrigido planeta proximo_signo
        grau_inicio_proximo (grau_inicio_proximo + 30) natal houses_array
        (dias_restantes_signo : ℚ) velocidade hoje)
    else none
  let retrogradacoes_calculadas :=
    calcular_retrogradacoes planeta planeta.sign velocidade houses_array hoje
  let retrogradacoes := retrogradacoes_calculadas.map fun retro =>
    { retro := retro,
      casas_ativadas := calcular_multiplas_casas_retrogradacao planeta retro houses_array }
  { planeta := planeta.name, signo_atual := planeta.sign,
    grau_atual := arredondar 1 planeta.normDegree,
    velocidade_diaria := arredondar 4 velocidade,
    eh_retrogrado := eh_retrogrado,
    tempo_restante_signo :=
      { dias := dias_restantes_signo,
        meses := arredondar 1 ((dias_restantes_signo : ℚ) / 30),
        data_mudanca := calcular_data_futura hoje dias_restantes_signo },
    proximo_signo := if eh_retrogrado then signo_anterior else proximo_signo,
    analise_signo_atual := analise_signo_atual,
    analise_proximo_signo := analise_proximo_signo,
    retrogradacoes := retrogradacoes,
    relevancia := calcular_relevancia planeta analise_signo_atual analise_proximo_signo }

/-- One element of the linear input array of `processar_completo`: a
planet-like dictionary which may also carry a `houses` key (index 22). -/
structure EntradaDado where
  dados : DadosPlaneta := {}
  houses : Option (List CuspideRaw) := none
deriving DecidableEq

/-- Truthiness of `data.get('name') and data.get('sign')`. -/
def nameSignPresentes (d : DadosPlaneta) : Bool :=
  (match d.name with
   | some s => !(s == "")
   | none => false) &&
  (match d.sign with
   | some s => !(s == "")
   | none => false)

/-- Truthiness of `data.get('houses')`: present and non-empty. -/
def housesTruthy (e : EntradaDado) : Bool :=
  match e.houses with
  | some hs => decide (hs ≠ [])
  | none => false

/-- The input-separation loop of `processar_completo`: indexes 0–10 are
current transits, 11–21 the natal chart, 22 the cusps; empty elements and
entries without truthy name and sign are skipped. -/
def separarEntradas (inputs : List (Option EntradaDado)) :
    List Planeta × List Planeta × Option EntradaDado :=
  inputs.enum.foldl (fun st (par : ℕ × Option EntradaDado) =>
    match par.2 with
    | none => st
    | some data =>
      if par.1 < 11 then
        if nameSignPresentes data.dados then
          (st.1 ++ [normalizar_planeta_data data.dados], st.2.1, st.2.2)
        else st
      else if par.1 < 22 then
        if nameSignPresentes data.dados then
          (st.1, st.2.1 ++ [normalizar_planeta_data data.dados], st.2.2)
        else st
      else if par.1 = 22 then
        if housesTruthy data then (st.1, st.2.1, some data) else st
      else st) ([], [], none)

/-- `self.usar_nasa` as set by `__init__` (disabled by default). -/
def usar_nasa : Bool := false

/-- `planetas_relevantes` of `processar_completo`. -/
def planetas_relevantes : List String :=
  ["Júpiter", "Saturno", "Urano", "Netuno", "Plutão", "Marte", "Vênus", "Mercúrio"]

/-- The per-planet loop of `processar_completo`, parameterised by the
outcome of each planet's analysis: the `try`/`except` around
`analisar_transito_planeta` appends the analysis on success and, on an
exception, logs and moves on — the failed planet leaves no trace in
`analise_completa`. -/
def processarPlanetaPasso (f : Planeta → Except String Analise)
    (transitos_atuais : List Planeta) (analise_completa : List Analise)
    (nome_planeta : String) : List Analise :=
  match encontrar_planeta nome_planeta transitos_atuais with
  | some planeta =>
    match f planeta with
    | Except.ok analise => analise_completa ++ [analise]
    | Except.error _ => analise_completa
  | none => analise_completa

def processarPlanetasLoopSobre (f : Planeta → Except String Analise)
    (nomes : List String) (transitos_atuais : List Planeta) : List Analise :=
  nomes.foldl (processarPlanetaPasso f transitos_atuais) []

/-- The loop of `processar_completo`, iterating over the fixed
`planetas_relevantes` list. -/
def processarPlanetasLoop (f : Planeta → Except String Analise)
    (transitos_atuais : List Planeta) : List Analise :=
  processarPlanetasLoopSobre f planetas_relevantes transitos_atuais

/-- Sort key of `analise_completa.sort(key=lambda x: x['relevancia'],
reverse=True)`. -/
def relevanciaGe (a b : Analise) : Prop := b.relevancia ≤ a.relevancia

instance : DecidableRel relevanciaGe := fun a b =>
  inferInstanceAs (Decidable (b.relevancia ≤ a.relevancia))

instance : IsTotal Analise relevanciaGe := ⟨fun a b => le_total b.relevancia a.relevancia⟩

instance : IsTrans Analise relevanciaGe := ⟨fun _ _ _ hab hbc => le_trans hbc hab⟩

/-- One entry of `mudancas_signo_proximas`. -/
structure MudancaProxima where
  planeta : Option String
  signo_atual : String
  proximo_signo : String
  data_mudanca : ℤ
  dias_restantes : ℤ
deriving DecidableEq

/-- One entry of `retrogradacoes_periodo`. -/
structure RetroPeriodo where
  planeta : Option String
  retrogradacoes : List RetroCompleta
deriving DecidableEq

/-- The `meta_info` dictionary. -/
structure MetaInfo where
  total_planetas_analisados : ℕ
  periodo_analise : String
  data_analise : ℤ
  planetas_com_aspectos : ℕ
  fonte_dados : String
  precisao_melhorada : Bool
deriving DecidableEq

/-- The success dictionary returned by `processar_completo`. -/
structure Resultado where
  tipo_analise : String
  todos_transitos : List Analise
  transitos_destaque : List Analise
  planeta_principal : Option Analise
  mudancas_signo_proximas : List MudancaProxima
  retrogradacoes_periodo : List RetroPeriodo
  meta_info : MetaInfo
deriving DecidableEq

/-- A `processar_completo` outcome: either an error dictionary or the full
report. -/
inductive Saida where
  | erro (mensagem : String)
  | ok (resultado : Resultado)
deriving DecidableEq

/-- `processar_completo(dados_entrada)` for an input already in array form,
with the wall-clock instant `hoje` explicit. -/
def processar_completo (inputs : List (Option EntradaDado)) (hoje : ℤ) : Saida :=
  let sep := separarEntradas inputs
  let transitos_atuais := sep.1
  let natal := sep.2.1
  match sep.2.2 with
  | none => Saida.erro "Cúspides não encontradas nos inputs"
  | some cuspides =>
    if transitos_atuais = [] then Saida.erro "Nenhum trânsito encontrado nos inputs"
    else
      let houses_array := cuspides.houses.getD []
      let analise_bruta := processarPlanetasLoop
        (fun planeta => Except.ok (analisar_transito_planeta planeta natal houses_array hoje))
        transitos_atuais
      let analise_completa := List.insertionSort relevanciaGe analise_bruta
      let transitos_destaque := analise_completa.filter fun t =>
        decide (8 ≤ t.relevancia) ||
        decide (3 ≤ t.analise_signo_atual.resumo.total_aspectos) ||
        decide (t.tempo_restante_signo.dias ≤ 90)
      Saida.ok {
        tipo_analise := "transitos_especificos_completo",
        todos_transitos := analise_completa,
        transitos_destaque := transitos_destaque,
        planeta_principal := analise_completa.head?,
        mudancas_signo_proximas :=
          (analise_completa.filter fun t => decide (t.tempo_restante_signo.dias ≤ 180)).map
            fun t => { planeta := t.planeta, signo_atual := t.signo_atual,
                       proximo_signo := t.proximo_signo,
                       data_mudanca := t.tempo_restante_signo.data_mudanca,
                       dias_restantes := t.tempo_restante_signo.dias },
        retrogradacoes_periodo :=
          (analise_completa.filter fun t => decide (t.retrogradacoes ≠ [])).map
            fun t => { planeta := t.planeta, retrogradacoes := t.retrogradacoes },
        meta_info := {
          total_planetas_analisados := analise_completa.length,
          periodo_analise := "12 meses",
          data_analise := hoje,
          planetas_com_aspectos :=
            (analise_completa.filter fun t =>
              decide (0 < t.analise_signo_atual.resumo.total_aspectos)).length,
          fonte_dados := if usar_nasa then "NASA_JPL" else "ALTERNATIVO",
          precisao_melhorada := true } }

end AstroEngineCompleto

/-- The module-level mutable caches (`_cache_planetas`,
`_cache_datas_futuras`, `_cache_aspectos`), modelled as association lists. -/
structure ModuleCaches where
  cache_planetas : List (String × Option DadosPlaneta) := []
  cache_datas_futuras : List (ℤ × ℤ) := []
  cache_aspectos : List (String × List AspectoBatch) := []
deriving DecidableEq

/-- `limpar_cache()`. -/
def limpar_cache (_ : ModuleCaches) : ModuleCaches := {}

/-- `calcular_data_futura_cached`: consult `_cache_datas_futuras` first,
otherwise compute and store. -/
def calcular_data_futura_cached (caches : ModuleCaches) (hoje dias_adicionais : ℤ) :
    ℤ × ModuleCaches :=
  match caches.cache_datas_futuras.find? (fun kv => kv.1 == dias_adicionais) with
  | some kv => (kv.2, caches)
  | none =>
    (hoje + dias_adicionais,
      { caches with cache_datas_futuras :=
          caches.cache_datas_futuras ++ [(dias_adicionais, hoje + dias_adicionais)] })

/-- `processar_completo` as seen from the module state: its call graph
(`separarEntradas`/`normalizar_planeta_data`, `encontrar_planeta`,
`analisar_transito_planeta` and everything below it) contains none of the
cached helpers (`encontrar_planeta_cached`, `calcular_data_futura_cached`)
and touches no instance cache, so the module caches pass through the call
unread and unchanged. -/
def processar_completo_st (caches : ModuleCaches)
    (inputs : List (Option AstroEngineCompleto.EntradaDado)) (hoje : ℤ) :
    AstroEngineCompleto.Saida × ModuleCaches :=
  (AstroEngineCompleto.processar_completo inputs hoje, caches)

/-- A concrete normalised planet record used to exercise the per-planet
loop. -/
def planetaTeste (nome : String) : AstroEngineCompleto.Planeta :=
  { name := some nome, fullDegree := 0, normDegree := 0, speed := 0,
    isRetro := false, sign := "Áries", house := 1 }

/-- A minimal concrete per-planet analysis record used to exercise the
per-planet loop. -/
def analiseTeste (nome : Option String) : AstroEngineCompleto.Analise :=
  { planeta := nome, signo_atual := "Áries", grau_atual := 0,
    velocidade_diaria := 0, eh_retrogrado := false,
    tempo_restante_signo := { dias := 0, meses := 0, data_mudanca := 0 },
    proximo_signo := "Touro",
    analise_signo_atual :=
      { signo := "Áries", casas_ativadas := [], aspectos_com_natal := [],
        resumo := { total_casas := 0, total_aspectos := 0,
                    aspectos_harmonicos := 0, aspectos_desafiadores := 0 } },
    analise_proximo_signo := none, retrogradacoes := [], relevancia := 0 }

/-! ## Helper lemmas -/

theorem processarPlanetaPasso_eq (f : AstroEngineCompleto.Planeta → Except String AstroEngineCompleto.Analise)
    (transitos : List AstroEngineCompleto.Planeta)
    (acc : List AstroEngineCompleto.Analise) (nome : String) :
    AstroEngineCompleto.processarPlanetaPasso f transitos acc nome =
      acc ++ ((AstroEngineCompleto.encontrar_planeta nome transitos).bind
        fun p => (f p).toOption).toList := by
  unfold AstroEngineCompleto.processarPlanetaPasso
  cases AstroEngineCompleto.encontrar_planeta nome transitos with
  | none => simp
  | some planeta =>
    rw [Option.some_bind]
    cases hf : f planeta with
    | ok analise => simp [hf, Except.toOption]
    | error e => simp [hf, Except.toOption]

theorem processarPlanetasLoopSobre_foldl (f : AstroEngineCompleto.Planeta → Except String AstroEngineCompleto.Analise)
    (transitos : List AstroEngineCompleto.Planeta) :
    ∀ (nomes : List String) (acc : List AstroEngineCompleto.Analise),
      nomes.foldl (AstroEngineCompleto.processarPlanetaPasso f transitos) acc =
        acc ++ nomes.filterMap (fun nome =>
          (AstroEngineCompleto.encontrar_planeta nome transitos).bind
            fun p => (f p).toOption) := by
  intro nomes
  induction nomes with
  | nil => intro acc; simp
  | cons nome resto ih =>
    intro acc
    rw [List.foldl_cons, processarPlanetaPasso_eq, ih, List.filterMap_cons]
    cases (AstroEngineCompleto.encontrar_planeta nome transitos).bind
        fun p => (f p).toOption with
    | none => simp
    | some analise => simp

theorem velocidades_medias_pos (nome : String) (padrao : ℚ) (h : 0 < padrao) :
    0 < AdvancedAstroCalculator.velocidades_medias nome padrao := by
  unfold AdvancedAstroCalculator.velocidades_medias
  cases hf : AdvancedAstroCalculator.velocidades_medias_tabela.find? fun kv => kv.1 == nome with
  | none => simpa [hf] using h
  | some kv =>
    have hmem := List.mem_of_find?_eq_some hf
    have hpos : ∀ kv ∈ AdvancedAstroCalculator.velocidades_medias_tabela, 0 < kv.2 := by
      intro kv hkv
      fin_cases hkv <;> norm_num
    simpa [hf] using hpos kv hmem

theorem velocidades_padrao_pos (nome : Option String) :
    0 < AstroEngineCompleto.velocidades_padrao nome := by
  unfold AstroEngineCompleto.velocidades_padrao
  cases nome with
  | none => norm_num
  | some s =>
    cases hf : AstroEngineCompleto.velocidades_padrao_tabela.find? fun kv => kv.1 == s with
    | none =>
      simp only [hf, Option.map_none', Option.getD_none]
      norm_num
    | some kv =>
      have hmem := List.mem_of_find?_eq_some hf
      have hpos : ∀ kv ∈ AstroEngineCompleto.velocidades_padrao_tabela, 0 < kv.2 := by
        intro kv hkv
        fin_cases hkv <;> norm_num
      simpa [hf] using hpos kv hmem

theorem retroScanDia_mantem (pos : ℤ → Option ℚ) (nome_planeta : String)
    (hvel : ∀ dia ph pa, pos dia = some ph → pos (dia + 1) = some pa →
      0 ≤ AstroEngineCompleto.ajustarVelocidade
        (AstroEngineCompleto.normalizarLongitude pa -
          AstroEngineCompleto.normalizarLongitude ph))
    (st : AstroEngineCompleto.ScanRetro) (dia : ℤ)
    (hst : st.em_retrogradacao = false) :
    AstroEngineCompleto.retroScanDia pos nome_planeta st dia = st := by
  unfold AstroEngineCompleto.retroScanDia
  cases hph : pos dia with
  | none => rfl
  | some ph =>
    cases hpa : pos (dia + 1) with
    | none => rfl
    | some pa =>
      have h0 := hvel dia ph pa hph hpa
      simp only
      split_ifs with h1 h2
      · exact absurd h1.1 (not_lt.mpr h0)
      · rw [hst] at h2
        exact absurd h2.2 (by simp)
      · rfl

theorem retroScanFoldl_mantem (pos : ℤ → Option ℚ) (nome_planeta : String)
    (hvel : ∀ dia ph pa, pos dia = some ph → pos (dia + 1) = some pa →
      0 ≤ AstroEngineCompleto.ajustarVelocidade
        (AstroEngineCompleto.normalizarLongitude pa -
          AstroEngineCompleto.normalizarLongitude ph)) :
    ∀ (dias : List ℤ) (st : AstroEngineCompleto.ScanRetro),
      st.em_retrogradacao = false →
      dias.foldl (AstroEngineCompleto.retroScanDia pos nome_planeta) st = st := by
  intro dias
  induction dias with
  | nil => intro st _; rfl
  | cons dia resto ih =>
    intro st hst
    have hstep := retroScanDia_mantem pos nome_planeta hvel st dia hst
    simp only [List.foldl_cons, hstep]
    exact ih st hst

theorem primeiroAspecto_eq_find (d m : ℚ) :
    ∀ tabela, AdvancedAstroCalculator.primeiroAspectoDentroOrbe d m tabela =
      tabela.find? fun a => decide (|d - a.angulo| ≤ m) := by
  intro tabela
  induction tabela with
  | nil => rfl
  | cons a resto ih =>
    unfold AdvancedAstroCalculator.primeiroAspectoDentroOrbe
    rw [List.find?_cons]
    by_cases h : |d - a.angulo| ≤ m
    · simp [h]
    · simp [h, ih]

theorem aspectoBatchDe_eq_spec (grau : ℚ) (nome : String) (pn : DadosPlaneta) :
    aspectoBatchDe grau nome pn = aspectoBatchSpec grau nome pn := by
  unfold aspectoBatchDe aspectoBatchSpec
  cases pn.fullDegree with
  | none => rfl
  | some fd =>
    by_cases hz : fd = 0
    · simp [hz]
    · simp only [hz, if_neg hz, Option.some_bind]
      rw [primeiroAspecto_eq_find]
      cases aspectos_principais.find? fun a =>
          decide (|(if |grau - fd| > 180 then 360 - |grau - fd| else |grau - fd|) -
            a.angulo| ≤ orbeMaximoBatch nome) with
      | none => rfl
      | some a => rfl

theorem aspectosBatchLoop_eq (grau : ℚ) (nome : String) :
    ∀ (l : List (Option DadosPlaneta)) (acc : List AspectoBatch),
      aspectosBatchLoop grau nome acc l =
        acc ++ l.filterMap fun o => o.bind (aspectoBatchSpec grau nome) := by
  intro l
  induction l with
  | nil => intro acc; simp [aspectosBatchLoop]
  | cons o resto ih =>
    intro acc
    rw [List.filterMap_cons]
    cases o with
    | none =>
      simp only [aspectosBatchLoop, Option.none_bind]
      rw [ih]
    | some pn =>
      rw [Option.some_bind, ← aspectoBatchDe_eq_spec]
      cases hde : aspectoBatchDe grau nome pn with
      | none =>
        simp only [aspectosBatchLoop, hde]
        rw [ih]
      | some entrada =>
        simp only [aspectosBatchLoop, hde]
        rw [ih, List.append_assoc]
        rfl

/-! ## Claim theorems -/

/-- C10: for every transiting longitude and natal list, the batch aspect
computation is exactly the per-planet first-matching-angle map — at most one
entry per natal planet, produced by testing the five canonical angles in the
fixed order conjunction, sextile, square, trine, opposition and keeping the
first within the applied maximum; natal planets that are `None` or lack a
truthy `fullDegree` contribute no entry, and the output never exceeds one
entry per input planet. -/
theorem calcular_aspectos_batch_caracterizacao (grau : ℚ)
    (natais : List (Option DadosPlaneta)) (nome : String) :
    calcular_aspectos_batch grau natais nome =
      natais.filterMap (fun o => o.bind (aspectoBatchSpec grau nome)) ∧
    (calcular_aspectos_batch grau natais nome).length ≤ natais.length := by
  have h0 : calcular_aspectos_batch grau natais nome =
      natais.filterMap (fun o => o.bind (aspectoBatchSpec grau nome)) := by
    unfold calcular_aspectos_batch
    simpa using aspectosBatchLoop_eq grau nome natais []
  refine ⟨h0, ?_⟩
  rw [h0]
  exact List.length_filterMap_le _ _

/-- C1 (counterexample): `calcular_aspectos_batch` returns an aspect whose
orb (4°) exceeds the minimum of the two planets' category orbs
(min(Sol 5°, Saturno 3°) = 3°): the applied tolerance there is the
transiting planet's orb alone, not the minimum. -/
theorem calcular_aspectos_batch_excede_orbe_minimo :
    ((calcular_aspectos_batch 0
        [some { name := some "Saturno", fullDegree := some 64, sign := some "Peixes",
                house := some 3 }] "Sol").map
      (fun e => (e.tipo_aspecto, e.orbe, e.orbe_maximo_usado)) = [("sextil", 4, 5)]) ∧
      min (AdvancedAstroCalculator.determinar_tipo_planeta "Sol").orbe
          (AdvancedAstroCalculator.determinar_tipo_planeta "Saturno").orbe = 3 := by
  constructor
  · norm_num [calcular_aspectos_batch, aspectosBatchLoop, aspectoBatchDe,
      AdvancedAstroCalculator.primeiroAspectoDentroOrbe,
      AdvancedAstroCalculator.aspectos, aspectos_principais, orbeMaximoBatch,
      arredondar, arredondarMeioPar, abs]
  · decide

/-- C1 (amended): the min-of-the-two-categories tolerance (5° personal, 3°
transpersonal) holds in `AdvancedAstroCalculator.identificar_aspecto`, where
an aspect is returned only within that minimum; but it does not hold on
every aspect-matching code path: `calcular_aspectos_batch` applies the
transiting planet's category orb alone, and the engine's
`identificar_aspecto` applies a flat 5° orb. -/
theorem tolerancia_orbe_amended :
    (∀ (diferenca : ℚ) (planeta1 planeta2 : String)
        (a : AdvancedAstroCalculator.Aspecto),
        AdvancedAstroCalculator.identificar_aspecto diferenca planeta1 planeta2 = some a →
        a.orbe_maximo = min (AdvancedAstroCalculator.determinar_tipo_planeta planeta1).orbe
            (AdvancedAstroCalculator.determinar_tipo_planeta planeta2).orbe ∧
          a.orbe ≤ a.orbe_maximo) ∧
    (∀ (grau : ℚ) (natais : List (Option DadosPlaneta)) (nome : String)
        (e : AspectoBatch), e ∈ calcular_aspectos_batch grau natais nome →
        e.orbe_maximo_usado = orbeMaximoBatch nome) ∧
    (∀ (diferenca : ℚ) (a : AstroEngineCompleto.AspectoEngine),
        AstroEngineCompleto.identificar_aspecto diferenca = some a → a.orbe ≤ 5) := by
  refine ⟨?_, ?_, ?_⟩
  · intro d p1 p2 a h
    simp only [AdvancedAstroCalculator.identificar_aspecto] at h
    rw [primeiroAspecto_eq_find, Option.map_eq_some'] at h
    obtain ⟨b, hb, hba⟩ := h
    have hpred := List.find?_some hb
    rw [decide_eq_true_eq] at hpred
    subst hba
    exact ⟨rfl, hpred⟩
  · intro grau natais nome e he
    have h0 : calcular_aspectos_batch grau natais nome =
        natais.filterMap (fun o => o.bind (aspectoBatchSpec grau nome)) := by
      unfold calcular_aspectos_batch
      simpa using aspectosBatchLoop_eq grau nome natais []
    rw [h0, List.mem_filterMap] at he
    obtain ⟨o, _, hoe⟩ := he
    cases o with
    | none => simp at hoe
    | some pn =>
      rw [Option.some_bind] at hoe
      unfold aspectoBatchSpec at hoe
      cases hfd : pn.fullDegree with
      | none => rw [hfd] at hoe; simp at hoe
      | some fd =>
        rw [hfd, Option.some_bind] at hoe
        by_cases hz : fd = 0
        · rw [if_pos hz] at hoe; simp at hoe
        · rw [if_neg hz] at hoe
          rw [Option.map_eq_some'] at hoe
          obtain ⟨b, _, hbe⟩ := hoe
          subst hbe
          rfl
  · intro d a h
    unfold AstroEngineCompleto.identificar_aspecto at h
    split_ifs at h with h1 h2 h3 h4 h5
    · injection h with h'
      subst h'
      exact h1
    · injection h with h'
      subst h'
      exact h2
    · injection h with h'
      subst h'
      exact h3
    · injection h with h'
      subst h'
      exact h4
    · injection h with h'
      subst h'
      exact h5

/-- C1 (witness): the amended statement's first conjunct evaluated at a
concrete match (separation 62° between two personal planets). -/
theorem tolerancia_orbe_amended_witness :
    (AdvancedAstroCalculator.Aspecto.mk "sextil" 2 "harmonioso" 6 5).orbe_maximo =
        min (AdvancedAstroCalculator.determinar_tipo_planeta "Sol").orbe
          (AdvancedAstroCalculator.determinar_tipo_planeta "Lua").orbe ∧
      (AdvancedAstroCalculator.Aspecto.mk "sextil" 2 "harmonioso" 6 5).orbe ≤
        (AdvancedAstroCalculator.Aspecto.mk "sextil" 2 "harmonioso" 6 5).orbe_maximo :=
  tolerancia_orbe_amended.1 62 "Sol" "Lua" _ (by
    norm_num [AdvancedAstroCalculator.identificar_aspecto,
      AdvancedAstroCalculator.primeiroAspectoDentroOrbe,
      AdvancedAstroCalculator.aspectos,
      AdvancedAstroCalculator.determinar_tipo_planeta,
      AdvancedAstroCalculator.planetas_pessoais,
      AdvancedAstroCalculator.planetas_transpessoais, abs])

/-- C5: aspect matching is symmetric — computing the circular separation and
matching with the two longitudes and the two planet names swapped yields the
same result (same aspect and orb, or none in both cases); this holds for all
rational longitudes, in particular on `[0, 360)`. -/
theorem identificar_aspecto_simetrico (a b : ℚ) (planeta1 planeta2 : String) :
    AdvancedAstroCalculator.identificar_aspecto
        (AdvancedAstroCalculator.calcular_diferenca_angular a b) planeta1 planeta2 =
      AdvancedAstroCalculator.identificar_aspecto
        (AdvancedAstroCalculator.calcular_diferenca_angular b a) planeta2 planeta1 := by
  have hd : AdvancedAstroCalculator.calcular_diferenca_angular a b =
      AdvancedAstroCalculator.calcular_diferenca_angular b a := by
    unfold AdvancedAstroCalculator.calcular_diferenca_angular
    rw [abs_sub_comm]
  rw [hd]
  simp only [AdvancedAstroCalculator.identificar_aspecto]
  rw [min_comm]

/-- C9: the daily-velocity divisors of `estimar_permanencia`, of the
sign-change estimate in `analisar_planetas_lentos`, and of
`analisar_transito_planeta` are strictly positive for every input planet:
when the reported speed is 0, a positive fallback mean motion is
substituted. -/
theorem divisores_velocidade_positivos (p : Planet) (q : AstroEngineCompleto.Planeta) :
    0 < AdvancedAstroCalculator.velocidadeEstimarPermanencia p ∧
    0 < AdvancedAstroCalculator.velocidadeLentos p ∧
    0 < AstroEngineCompleto.velocidadeTransito q := by
  refine ⟨?_, ?_, ?_⟩
  · unfold AdvancedAstroCalculator.velocidadeEstimarPermanencia
    split_ifs with h
    · exact velocidades_medias_pos _ _ (by norm_num)
    · exact lt_of_le_of_ne (abs_nonneg _) (Ne.symm h)
  · unfold AdvancedAstroCalculator.velocidadeLentos
    split_ifs with h
    · exact velocidades_medias_pos _ _ (by norm_num)
    · exact lt_of_le_of_ne (abs_nonneg _) (Ne.symm h)
  · simp only [AstroEngineCompleto.velocidadeTransito]
    split_ifs with h
    · exact velocidades_padrao_pos _
    · exact lt_of_le_of_ne (abs_nonneg _) (Ne.symm h)

/-- C4 (counterexample): with a failing ephemeris backend,
`obter_posicao_ephem` does not propagate any error — it silently returns the
default position (Áries, 0 degrees, speed 1.0). -/
theorem obter_posicao_ephem_padrao_silencioso :
    AstroEngineCompleto.obter_posicao_ephem (fun _ => none) "Sol" =
      { name := "Sol", sign := "Áries", normDegree := 0, fullDegree := 0, speed := 1 } := rfl

/-- C4 (amended): whenever the ephemeris backend fails or the body is not in
the supported map, the position lookup catches the error and returns the
fallback default position instead of propagating it. -/
theorem obter_posicao_ephem_amended (backend : String → Option ℚ) (nome_planeta : String)
    (h : backend nome_planeta = none ∨ nome_planeta ∉ AstroEngineCompleto.ephem_planetas) :
    AstroEngineCompleto.obter_posicao_ephem backend nome_planeta =
      AstroEngineCompleto.posicaoPadrao nome_planeta := by
  unfold AstroEngineCompleto.obter_posicao_ephem
  have hnone : (if nome_planeta ∈ AstroEngineCompleto.ephem_planetas
      then backend nome_planeta else none) = none := by
    rcases h with h | h
    · split_ifs <;> simp [h]
    · simp [h]
  rw [hnone]

/-- C4 (witness): the amended statement at a concrete failing backend. -/
theorem obter_posicao_ephem_amended_witness :
    AstroEngineCompleto.obter_posicao_ephem (fun _ => none) "Sol" =
      AstroEngineCompleto.posicaoPadrao "Sol" :=
  obter_posicao_ephem_amended (fun _ => none) "Sol" (Or.inl rfl)

/-- C6 (counterexample): normalisation does not establish
`retrograde = velocity < 0` — an input with `isRetro` false and a negative
speed keeps the negative speed with the flag false. -/
theorem normalizar_planeta_data_contraexemplo :
    (AstroEngineCompleto.normalizar_planeta_data
        { name := some "Marte", speed := some (-1), isRetroBool := some false }).isRetro
        = false ∧
      (AstroEngineCompleto.normalizar_planeta_data
        { name := some "Marte", speed := some (-1), isRetroBool := some false }).speed < 0 := by
  constructor
  · rfl
  · norm_num [AstroEngineCompleto.normalizar_planeta_data,
      AstroEngineCompleto.isRetroBoolDe]

/-- C6 (amended): after normalisation, the retrograde flag implies a
non-positive speed (a non-negative reported speed is replaced by
`-abs(speed)`); the converse direction of the claimed invariant fails. -/
theorem normalizar_planeta_data_amended (d : DadosPlaneta)
    (h : (AstroEngineCompleto.normalizar_planeta_data d).isRetro = true) :
    (AstroEngineCompleto.normalizar_planeta_data d).speed ≤ 0 := by
  have hretro : (AstroEngineCompleto.normalizar_planeta_data d).isRetro =
      AstroEngineCompleto.isRetroBoolDe d := rfl
  have hspeed : (AstroEngineCompleto.normalizar_planeta_data d).speed =
      if AstroEngineCompleto.isRetroBoolDe d ∧ 0 ≤ d.speed.getD 0
      then -|d.speed.getD 0| else d.speed.getD 0 := rfl
  rw [hretro] at h
  rw [hspeed]
  split_ifs with hc
  · exact neg_nonpos.mpr (abs_nonneg _)
  · have hneg : ¬ (0 : ℚ) ≤ d.speed.getD 0 := fun hge => hc ⟨by rw [h], hge⟩
    exact le_of_lt (not_le.mp hneg)

/-- C6 (witness): the amended statement at a concrete retrograde input. -/
theorem normalizar_planeta_data_amended_witness :
    (AstroEngineCompleto.normalizar_planeta_data
        { name := some "Marte", speed := some 2, isRetroBool := some true }).speed ≤ 0 :=
  normalizar_planeta_data_amended
    { name := some "Marte", speed := some 2, isRetroBool := some true } rfl

/-- C2 (counterexample): the retrograde computation used by the transit
analysis (`calcular_retrogradacoes`) returns a non-empty list for Saturn
with a non-negative input velocity — it ignores the velocity and reports the
static table interval overlapping the window. -/
theorem calcular_retrogradacoes_contraexemplo :
    (AstroEngineCompleto.calcular_retrogradacoes
        { name := some "Saturno", fullDegree := 350, normDegree := 20, speed := 1,
          isRetro := false, sign := "Peixes", house := 1 }
        "Peixes" 1 [] (dataDia 2025 6 1)) ≠ [] ∧
      (AstroEngineCompleto.calcular_retrogradacoes
        { name := some "Saturno", fullDegree := 350, normDegree := 20, speed := 1,
          isRetro := false, sign := "Peixes", house := 1 }
        "Peixes" 1 [] (dataDia 2025 6 1)).map
          (fun r => (r.inicio, r.fim, r.fonte)) =
        [(dataDia 2025 5 24, dataDia 2025 10 15, "DADOS_ENTRADA_CORRIGIDO")] := by
  constructor
  · decide
  · decide

/-- C2 (amended): the daily velocity scan of
`calcular_retrogradacoes_nasa_dinamico` opens no interval when the velocity
at every successfully sampled day is non-negative, so it returns an empty
list; but the retrograde computation used by the transit analysis
(`calcular_retrogradacoes`) never consults the velocity: its output is the
same for any two velocities and house arrays. -/
theorem retrogradacoes_nao_negativas_amended (pos : ℤ → Option ℚ)
    (nome_planeta : String) (inicio fim : ℤ)
    (planeta : AstroEngineCompleto.Planeta) (signo_atual : String) (v₁ v₂ : ℚ)
    (houses₁ houses₂ : List AstroEngineCompleto.CuspideRaw) (hoje : ℤ)
    (hvel : ∀ dia ph pa, pos dia = some ph → pos (dia + 1) = some pa →
      0 ≤ AstroEngineCompleto.ajustarVelocidade
        (AstroEngineCompleto.normalizarLongitude pa -
          AstroEngineCompleto.normalizarLongitude ph)) :
    AstroEngineCompleto.retroScanLoop pos nome_planeta inicio fim = [] ∧
      AstroEngineCompleto.calcular_retrogradacoes planeta signo_atual v₁ houses₁ hoje =
        AstroEngineCompleto.calcular_retrogradacoes planeta signo_atual v₂ houses₂ hoje := by
  constructor
  · unfold AstroEngineCompleto.retroScanLoop
    rw [retroScanFoldl_mantem pos nome_planeta hvel _ _ rfl]
  · rfl

/-- C2 (witness): the amended statement for a constant synthetic provider
with zero velocity over an 11-day horizon and two different velocities. -/
theorem retrogradacoes_nao_negativas_amended_witness :
    AstroEngineCompleto.retroScanLoop (fun _ => some 0) "Saturno" 0 10 = [] ∧
      AstroEngineCompleto.calcular_retrogradacoes
        { name := some "Saturno", fullDegree := 350, normDegree := 20, speed := 1,
          isRetro := false, sign := "Peixes", house := 1 } "Peixes" 1 []
        (dataDia 2025 6 1) =
      AstroEngineCompleto.calcular_retrogradacoes
        { name := some "Saturno", fullDegree := 350, normDegree := 20, speed := 1,
          isRetro := false, sign := "Peixes", house := 1 } "Peixes" 0 []
        (dataDia 2025 6 1) :=
  retrogradacoes_nao_negativas_amended (fun _ => some 0) "Saturno" 0 10
    { name := some "Saturno", fullDegree := 350, normDegree := 20, speed := 1,
      isRetro := false, sign := "Peixes", house := 1 } "Peixes" 1 0 [] []
    (dataDia 2025 6 1)
    (by
      intro dia ph pa hph hpa
      simp only [Option.some.injEq] at hph hpa
      subst hph
      subst hpa
      norm_num [AstroEngineCompleto.ajustarVelocidade,
        AstroEngineCompleto.normalizarLongitude])

/-- C7 (counterexample): when one planet's analysis fails, the per-planet
loop of `processar_completo` returns normally with the other planets'
analyses, but the failed planet (Saturno) leaves no entry at all in the
result — there is no explicit failure marker for it. -/
theorem processar_loop_omite_planeta_falho :
    (AstroEngineCompleto.processarPlanetasLoop
        (fun p => if p.name = some "Saturno" then Except.error "Erro ao analisar"
                  else Except.ok (analiseTeste p.name))
        [planetaTeste "Júpiter", planetaTeste "Saturno"]).map
      AstroEngineCompleto.Analise.planeta = [some "Júpiter"] := by
  decide

/-- C7 (amended): if the analysis of one planet raises, the complete-report
loop still returns, containing the analyses of all planets whose analysis
succeeded, in the fixed relevant-planet order; the failed planet is silently
omitted from the result rather than appearing with a failure marker. -/
theorem processar_loop_caracterizacao
    (f : AstroEngineCompleto.Planeta → Except String AstroEngineCompleto.Analise)
    (nomes : List String) (transitos : List AstroEngineCompleto.Planeta) :
    AstroEngineCompleto.processarPlanetasLoopSobre f nomes transitos =
      nomes.filterMap (fun nome =>
        (AstroEngineCompleto.encontrar_planeta nome transitos).bind
          fun p => (f p).toOption) ∧
    AstroEngineCompleto.processarPlanetasLoop f transitos =
      AstroEngineCompleto.planetas_relevantes.filterMap (fun nome =>
        (AstroEngineCompleto.encontrar_planeta nome transitos).bind
          fun p => (f p).toOption) := by
  constructor
  · unfold AstroEngineCompleto.processarPlanetasLoopSobre
    simpa using processarPlanetasLoopSobre_foldl f transitos nomes []
  · unfold AstroEngineCompleto.processarPlanetasLoop
      AstroEngineCompleto.processarPlanetasLoopSobre
    simpa using processarPlanetasLoopSobre_foldl f transitos
      AstroEngineCompleto.planetas_relevantes []

/-! ## House-partition machinery (C3) -/

theorem mem_spanPairs_iff {α : Type} (s : List α) (p : α × α) :
    p ∈ spanPairs s ↔ ∃ i : Fin s.length, parSpan s i = p := by
  unfold spanPairs
  simp [List.mem_map]

theorem parSpan_mem_spanPairs {α : Type} (s : List α) (i : Fin s.length) :
    parSpan s i ∈ spanPairs s :=
  (mem_spanPairs_iff s _).mpr ⟨i, rfl⟩

theorem contemSpan_proprio {α : Type} (deg : α → ℚ) (x : ℚ) (p : α × α)
    (h : deg p.1 = x) : contemSpan deg x p = true := by
  unfold contemSpan
  split_ifs with hlt
  · rw [decide_eq_true_eq]
    exact ⟨le_of_eq h, h ▸ hlt⟩
  · rw [decide_eq_true_eq]
    exact Or.inl (le_of_eq h)

theorem find?_eq_some_of_unico {α : Type} (pred : α → Bool) :
    ∀ (l : List α) (p : α), p ∈ l → pred p = true →
      (∀ q ∈ l, pred q = true → q = p) → l.find? pred = some p := by
  intro l
  induction l with
  | nil => intro p hmem; cases hmem
  | cons a resto ih =>
    intro p hmem hp huniq
    by_cases ha : pred a = true
    · have hap : a = p := huniq a (List.mem_cons_self a resto) ha
      subst hap
      exact List.find?_cons_of_pos _ ha
    · rw [List.find?_cons_of_neg _ (by simpa using ha)]
      refine ih p ?_ hp ?_
      · rcases List.mem_cons.mp hmem with h | h
        · subst h; exact absurd hp ha
        · exact h
      · intro q hq hq'
        exact huniq q (List.mem_cons_of_mem _ hq) hq'

theorem parSpan_normal {α : Type} (s : List α) (i : Fin s.length)
    (h : i.val + 1 < s.length) :
    parSpan s i = (s.get i, s.get ⟨i.val + 1, h⟩) := by
  unfold parSpan
  have hmod : (⟨(i.val + 1) % s.length, Nat.mod_lt _ i.pos⟩ : Fin s.length) =
      ⟨i.val + 1, h⟩ := Fin.ext (Nat.mod_eq_of_lt h)
  rw [hmod]

theorem parSpan_wrap {α : Type} (s : List α) (hn : 0 < s.length)
    (hl : s.length - 1 < s.length) :
    parSpan s ⟨s.length - 1, hl⟩ = (s.get ⟨s.length - 1, hl⟩, s.get ⟨0, hn⟩) := by
  unfold parSpan
  have hmod : (⟨(s.length - 1 + 1) % s.length, Nat.mod_lt _ (Fin.pos ⟨s.length - 1, hl⟩)⟩ :
      Fin s.length) = ⟨0, hn⟩ := by
    apply Fin.ext
    simp only
    have heq : s.length - 1 + 1 = s.length := by omega
    rw [heq, Nat.mod_self]
  rw [hmod]

theorem contemSpan_normal_iff {α : Type} (deg : α → ℚ) (x : ℚ) (p : α × α)
    (hlt : deg p.1 < deg p.2) :
    contemSpan deg x p = true ↔ (deg p.1 ≤ x ∧ x < deg p.2) := by
  unfold contemSpan
  rw [if_pos hlt, decide_eq_true_eq]

theorem contemSpan_wrap_iff {α : Type} (deg : α → ℚ) (x : ℚ) (p : α × α)
    (hge : deg p.2 ≤ deg p.1) :
    contemSpan deg x p = true ↔ (deg p.1 ≤ x ∨ x < deg p.2) := by
  unfold contemSpan
  rw [if_neg (not_lt.mpr hge), decide_eq_true_eq]

theorem existe_unico_indice {α : Type} (deg : α → ℚ) (x : ℚ) (s : List α)
    (hchain : List.Pairwise (fun u v => deg u < deg v) s)
    (hn : 2 ≤ s.length) :
    ∃ i : Fin s.length, contemSpan deg x (parSpan s i) = true ∧
      ∀ j : Fin s.length, contemSpan deg x (parSpan s j) = true → j = i := by
  have h0 : 0 < s.length := by omega
  have hlast : s.length - 1 < s.length := by omega
  have hmono := List.pairwise_iff_get.mp hchain
  have hmono_le : ∀ i j : Fin s.length, i.val ≤ j.val → deg (s.get i) ≤ deg (s.get j) := by
    intro i j hij
    rcases eq_or_lt_of_le hij with h | h
    · rw [Fin.ext h]
    · exact le_of_lt (hmono i j (Fin.lt_def.mpr h))
  set primeiro := s.get ⟨0, h0⟩ with hprim
  have hdd : ∀ (k : ℕ) (hk : k < s.length), s.getD k primeiro = s.get ⟨k, hk⟩ :=
    fun k hk => List.getD_eq_get s primeiro hk
  by_cases hmid : deg (s.get ⟨0, h0⟩) ≤ x ∧ x < deg (s.get ⟨s.length - 1, hlast⟩)
  · -- x lies between the first and last cusp degree: a unique adjacent span
    set j := Nat.findGreatest (fun k => deg (s.getD k primeiro) ≤ x) (s.length - 2) with hj
    have hj_le : j ≤ s.length - 2 := Nat.findGreatest_le _
    have hjn : j < s.length := by omega
    have hj1lt : j + 1 < s.length := by omega
    have hP0 : deg (s.getD 0 primeiro) ≤ x := by
      rw [hdd 0 h0]
      exact hmid.1
    have hPj : deg (s.getD j primeiro) ≤ x :=
      Nat.findGreatest_spec (P := fun k => deg (s.getD k primeiro) ≤ x) (Nat.zero_le _) hP0
    have hPjget : deg (s.get ⟨j, hjn⟩) ≤ x := by
      rw [← hdd j hjn]
      exact hPj
    have hnext : x < deg (s.get ⟨j + 1, hj1lt⟩) := by
      by_cases hcase : j + 1 ≤ s.length - 2
      · have hng := Nat.findGreatest_is_greatest
          (show Nat.findGreatest (fun k => deg (s.getD k primeiro) ≤ x) (s.length - 2) < j + 1 by
            rw [← hj]; omega) hcase
        rw [← hdd (j + 1) hj1lt]
        exact not_le.mp hng
      · have hje : (⟨j + 1, hj1lt⟩ : Fin s.length) = ⟨s.length - 1, hlast⟩ :=
          Fin.mk_eq_mk.mpr (by omega)
        rw [hje]
        exact hmid.2
    refine ⟨⟨j, hjn⟩, ?_, ?_⟩
    · rw [parSpan_normal s ⟨j, hjn⟩ hj1lt,
        contemSpan_normal_iff deg x _ (hmono _ _ (Fin.mk_lt_mk.mpr (Nat.lt_succ_self _)))]
      exact ⟨hPjget, hnext⟩
    · intro jf hjf
      by_cases hwrap : jf.val = s.length - 1
      · exfalso
        have hjf_eq : jf = ⟨s.length - 1, hlast⟩ := Fin.ext hwrap
        rw [hjf_eq, parSpan_wrap s h0 hlast,
          contemSpan_wrap_iff deg x _
            (le_of_lt (hmono _ _ (Fin.mk_lt_mk.mpr (by omega))))] at hjf
        rcases hjf with h | h
        · exact absurd hmid.2 (not_lt.mpr h)
        · exact absurd hmid.1 (not_le.mpr h)
      · have hjf1 : jf.val + 1 < s.length := by
          have := jf.isLt
          omega
        have hadj : deg (s.get jf) < deg (s.get ⟨jf.val + 1, hjf1⟩) :=
          hmono jf ⟨jf.val + 1, hjf1⟩ (Fin.lt_def.mpr (Nat.lt_succ_self _))
        rw [parSpan_normal s jf hjf1,
          contemSpan_normal_iff deg x (s.get jf, s.get ⟨jf.val + 1, hjf1⟩) hadj] at hjf
        refine Fin.ext ?_
        show jf.val = j
        by_contra hne
        rcases Nat.lt_or_ge jf.val j with hlt | hge
        · have hle : deg (s.get ⟨jf.val + 1, hjf1⟩) ≤ deg (s.get ⟨j, hjn⟩) :=
            hmono_le _ _ (show jf.val + 1 ≤ j by omega)
          have := hjf.2
          linarith
        · have hgt : j < jf.val := by omega
          have hle : deg (s.get ⟨j + 1, hj1lt⟩) ≤ deg (s.get jf) :=
            hmono_le _ _ (show j + 1 ≤ jf.val by omega)
          have := hjf.1
          linarith
  · -- x is below the first or at/above the last cusp degree: the wrap span
    push_neg at hmid
    refine ⟨⟨s.length - 1, hlast⟩, ?_, ?_⟩
    · have hfl : deg (s.get ⟨0, h0⟩) < deg (s.get ⟨s.length - 1, hlast⟩) :=
        hmono ⟨0, h0⟩ ⟨s.length - 1, hlast⟩ (Fin.mk_lt_mk.mpr (by omega))
      rw [parSpan_wrap s h0 hlast,
        contemSpan_wrap_iff deg x (s.get ⟨s.length - 1, hlast⟩, s.get ⟨0, h0⟩)
          (le_of_lt hfl)]
      by_cases hf : deg (s.get ⟨0, h0⟩) ≤ x
      · exact Or.inl (hmid hf)
      · exact Or.inr (not_le.mp hf)
    · intro jf hjf
      by_cases hwrap : jf.val = s.length - 1
      · exact Fin.ext hwrap
      · exfalso
        have hjf1 : jf.val + 1 < s.length := by
          have := jf.isLt
          omega
        have hadj : deg (s.get jf) < deg (s.get ⟨jf.val + 1, hjf1⟩) :=
          hmono jf ⟨jf.val + 1, hjf1⟩ (Fin.lt_def.mpr (Nat.lt_succ_self _))
        rw [parSpan_normal s jf hjf1,
          contemSpan_normal_iff deg x (s.get jf, s.get ⟨jf.val + 1, hjf1⟩) hadj] at hjf
        have h1 : deg (s.get ⟨0, h0⟩) ≤ x :=
          le_trans (hmono_le _ _ (Nat.zero_le _)) hjf.1
        have h2 : deg (s.get ⟨s.length - 1, hlast⟩) ≤ x := hmid h1
        have h3 : deg (s.get ⟨jf.val + 1, hjf1⟩) ≤ deg (s.get ⟨s.length - 1, hlast⟩) :=
          hmono_le _ _ (show jf.val + 1 ≤ s.length - 1 by omega)
        have := hjf.2
        linarith

/-- C3: for every set of 12 house cusps with pairwise-distinct degrees in
`[0, 360)` and every longitude `x` in `[0, 360)`, house lookup hits exactly
one of the 12 circular spans `[cusp_i, next cusp)` of the degree-sorted
cusps — the wraparound test on the span whose next cusp degree is smaller —
and `determinar_casa` returns that span's house; at a cusp degree itself the
cusp's own house is returned (lower bound inclusive). -/
theorem determinar_casa_particao (cuspides : List House) (x : ℚ)
    (hlen : cuspides.length = 12)
    (hnodup : (cuspides.map House.degree).Nodup)
    (hrange : ∀ c ∈ cuspides, 0 ≤ c.degree ∧ c.degree < 360)
    (hx : 0 ≤ x ∧ x < 360) :
    ∃ p, p ∈ spanPairs (List.insertionSort degLe cuspides) ∧
      contemSpan House.degree x p = true ∧
      (∀ q ∈ spanPairs (List.insertionSort degLe cuspides),
          contemSpan House.degree x q = true → q = p) ∧
      AdvancedAstroCalculator.determinar_casa x cuspides = some
        { casa := p.1.house, cuspide_grau := p.1.degree,
          proxima_cuspide := p.2.degree, proxima_casa := p.2.house } ∧
      (∀ c ∈ cuspides, c.degree = x → p.1 = c) := by
  set s := List.insertionSort degLe cuspides with hs
  have hperm : s.Perm cuspides := List.perm_insertionSort degLe cuspides
  have hsorted : List.Sorted degLe s := List.sorted_insertionSort degLe cuspides
  have hnodup_s : (s.map House.degree).Nodup :=
    (List.Perm.nodup_iff (List.Perm.map House.degree hperm)).mpr hnodup
  have hpair_ne : List.Pairwise (fun u v : House => u.degree ≠ v.degree) s :=
    List.pairwise_map.mp hnodup_s
  have hchain : List.Pairwise (fun u v : House => u.degree < v.degree) s :=
    (List.Pairwise.and hsorted hpair_ne).imp fun h => lt_of_le_of_ne h.1 h.2
  have hn : 2 ≤ s.length := by
    have hle : s.length = cuspides.length := hperm.length_eq
    omega
  obtain ⟨i, hcontem, huniq_idx⟩ := existe_unico_indice House.degree x s hchain hn
  have huniq_pairs : ∀ q ∈ spanPairs s, contemSpan House.degree x q = true →
      q = parSpan s i := by
    intro q hq hqc
    obtain ⟨jf, hjf⟩ := (mem_spanPairs_iff s q).mp hq
    rw [← hjf] at hqc ⊢
    rw [huniq_idx jf hqc]
  refine ⟨parSpan s i, parSpan_mem_spanPairs s i, hcontem, huniq_pairs, ?_, ?_⟩
  · unfold AdvancedAstroCalculator.determinar_casa
    rw [← hs, find?_eq_some_of_unico (contemSpan House.degree x) (spanPairs s)
      (parSpan s i) (parSpan_mem_spanPairs s i) hcontem huniq_pairs]
    rfl
  · intro c hc hcx
    have hcs : c ∈ s := hperm.mem_iff.mpr hc
    obtain ⟨ic, hic⟩ := List.mem_iff_get.mp hcs
    have hfst : (parSpan s ic).1 = s.get ic := rfl
    have hcontem_c : contemSpan House.degree x (parSpan s ic) = true := by
      apply contemSpan_proprio
      rw [hfst, hic, hcx]
    have heq := huniq_pairs (parSpan s ic) (parSpan_mem_spanPairs s ic) hcontem_c
    rw [← heq, hfst, hic]

/-- C3 (witness): the partition statement applied to a concrete cusp set
(12 cusps at 10°, 40°, …, 340°) and the longitude 25°. -/
theorem determinar_casa_particao_witness :
    ∃ p, p ∈ spanPairs (List.insertionSort degLe
        [House.mk 1 "Áries" 10, House.mk 2 "Touro" 40, House.mk 3 "Gêmeos" 70,
         House.mk 4 "Câncer" 100, House.mk 5 "Leão" 130, House.mk 6 "Virgem" 160,
         House.mk 7 "Libra" 190, House.mk 8 "Escorpião" 220, House.mk 9 "Sagitário" 250,
         House.mk 10 "Capricórnio" 280, House.mk 11 "Aquário" 310,
         House.mk 12 "Peixes" 340]) ∧
      contemSpan House.degree 25 p = true ∧
      (∀ q ∈ spanPairs (List.insertionSort degLe
          [House.mk 1 "Áries" 10, House.mk 2 "Touro" 40, House.mk 3 "Gêmeos" 70,
           House.mk 4 "Câncer" 100, House.mk 5 "Leão" 130, House.mk 6 "Virgem" 160,
           House.mk 7 "Libra" 190, House.mk 8 "Escorpião" 220, House.mk 9 "Sagitário" 250,
           House.mk 10 "Capricórnio" 280, House.mk 11 "Aquário" 310,
           House.mk 12 "Peixes" 340]),
          contemSpan House.degree 25 q = true → q = p) ∧
      AdvancedAstroCalculator.determinar_casa 25
          [House.mk 1 "Áries" 10, House.mk 2 "Touro" 40, House.mk 3 "Gêmeos" 70,
           House.mk 4 "Câncer" 100, House.mk 5 "Leão" 130, House.mk 6 "Virgem" 160,
           House.mk 7 "Libra" 190, House.mk 8 "Escorpião" 220, House.mk 9 "Sagitário" 250,
           House.mk 10 "Capricórnio" 280, House.mk 11 "Aquário" 310,
           House.mk 12 "Peixes" 340] = some
        { casa := p.1.house, cuspide_grau := p.1.degree,
          proxima_cuspide := p.2.degree, proxima_casa := p.2.house } ∧
      (∀ c ∈ [House.mk 1 "Áries" 10, House.mk 2 "Touro" 40, House.mk 3 "Gêmeos" 70,
           House.mk 4 "Câncer" 100, House.mk 5 "Leão" 130, House.mk 6 "Virgem" 160,
           House.mk 7 "Libra" 190, House.mk 8 "Escorpião" 220, House.mk 9 "Sagitário" 250,
           House.mk 10 "Capricórnio" 280, House.mk 11 "Aquário" 310,
           House.mk 12 "Peixes" 340], c.degree = 25 → p.1 = c) :=
  determinar_casa_particao
    [House.mk 1 "Áries" 10, House.mk 2 "Touro" 40, House.mk 3 "Gêmeos" 70,
     House.mk 4 "Câncer" 100, House.mk 5 "Leão" 130, House.mk 6 "Virgem" 160,
     House.mk 7 "Libra" 190, House.mk 8 "Escorpião" 220, House.mk 9 "Sagitário" 250,
     House.mk 10 "Capricórnio" 280, House.mk 11 "Aquário" 310,
     House.mk 12 "Peixes" 340] 25 rfl (by decide) (by decide) (by decide)

/-- C8: the complete report computation is deterministic and idempotent —
with identical input arrays and an identical now-instant the output is the
same for any two module-cache states, after a previous call, and after
`limpar_cache`; the call leaves the caches untouched. -/
theorem processar_completo_idempotente (c₁ c₂ : ModuleCaches)
    (inputs : List (Option AstroEngineCompleto.EntradaDado)) (hoje : ℤ) :
    (processar_completo_st c₁ inputs hoje).1 = (processar_completo_st c₂ inputs hoje).1 ∧
      (processar_completo_st (processar_completo_st c₁ inputs hoje).2 inputs hoje).1 =
        (processar_completo_st c₁ inputs hoje).1 ∧
      (processar_completo_st (limpar_cache c₁) inputs hoje).1 =
        (processar_completo_st c₁ inputs hoje).1 ∧
      (processar_completo_st c₁ inputs hoje).2 = c₁ :=
  ⟨rfl, rfl, rfl, rfl⟩

end Astro
